import Mathlib

/-!
Verification of the synthetic-data generator and analytical queries of
`sql_data_analysis.py` (with the standalone renderer `generate_visualizations.py`),
as a shallow embedding in Lean.

Modelling conventions:
* Money is modelled in exact integer cents (`Nat`).  The Python script works in
  binary floating point and stores `round(total_amount, 2)`; for this catalog
  (prices with at most two decimals, quantities ≤ 3, at most 5 items) the rounded
  float total coincides with the exact cent total, so the cents model captures
  the stored values "within rounding to cents".
* Randomness: the script draws from NumPy's process-global RNG via
  `np.random.randint(lo, hi)`.  We model the ambient draw stream as a function
  `g : Nat → Nat` (the k-th raw draw), with `randint lo hi` at position `k`
  embedded as `lo + g k % (hi - lo)`; every sequence of values `randint` can
  return is realised by some `g`, so theorems quantified over all `g` cover all
  behaviours of the script.  Positions are threaded sequentially through the
  generation loops exactly as the script consumes draws.
* Dates are modelled as day offsets from 2021-01-01 (the script draws
  `np.random.randint(0, 730)` days); 2021 and 2022 are both non-leap years.
-/

namespace SQLAnalysis

/-- A row of the `Customers` table (`registration_day` is the day offset from
2021-01-01 of `registration_date`). -/
structure Customer where
  customer_id : Nat
  name : String
  email : String
  registration_day : Nat
deriving DecidableEq

/-- A row of the `Products` table; `price` is in cents. -/
structure Product where
  product_id : Nat
  name : String
  category : String
  price : Nat
deriving DecidableEq

/-- A row of the `Orders` table; `order_day` is the day offset from 2021-01-01
of `order_date`, `total_amount` is in cents. -/
structure Order where
  order_id : Nat
  customer_id : Nat
  order_day : Nat
  total_amount : Nat
deriving DecidableEq

/-- A row of the `OrderItems` table (`order_item_id` is assigned by the store's
AUTOINCREMENT and plays no role in any query); `unit_price` is in cents. -/
structure OrderItem where
  order_id : Nat
  product_id : Nat
  quantity : Nat
  unit_price : Nat
deriving DecidableEq

/-- The fixed 10-product catalog inserted into `Products` (prices in cents). -/
def products : List Product :=
  [⟨1, "Smartphone", "Electronics", 69999⟩,
   ⟨2, "Laptop", "Electronics", 119999⟩,
   ⟨3, "Tablet", "Electronics", 49999⟩,
   ⟨4, "Headphones", "Electronics", 19999⟩,
   ⟨5, "Jeans", "Fashion", 4999⟩,
   ⟨6, "T-Shirt", "Fashion", 1999⟩,
   ⟨7, "Sneakers", "Fashion", 8999⟩,
   ⟨8, "Coffee Maker", "Home & Kitchen", 7999⟩,
   ⟨9, "Blender", "Home & Kitchen", 5999⟩,
   ⟨10, "Book", "Books", 1499⟩]

/-- `num_customers = 200` in the script. -/
def numCustomers : Nat := 200

/-- `num_orders = 1000` in the script. -/
def numOrders : Nat := 1000

/-- The customer-generation loop: for `i` in `start, start+1, ...` (the script
runs `i = 1..200`), build `(i, "Customer i", "customeri@example.com", reg_date)`
with `reg_date = randint(0, 730)` days after 2021-01-01, consuming one draw. -/
def genCustomers (g : Nat → Nat) : Nat → Nat → Nat → List Customer
  | 0, _, _ => []
  | n + 1, pos, i =>
    { customer_id := i,
      name := "Customer " ++ toString i,
      email := "customer" ++ toString i ++ "@example.com",
      registration_day := g pos % 730 } :: genCustomers g n (pos + 1) (i + 1)

/-- `products[np.random.randint(0, len(products))]`: the random catalog pick of
the item loop. -/
def pickProduct (g : Nat → Nat) (pos : Nat) : Product :=
  products.get ⟨g pos % products.length, Nat.mod_lt _ (by decide)⟩

/-- The item loop of one order: `n` items for order `oid`, each picking a random
product (one draw) and a quantity `randint(1, 4)` (one draw), appending
`(order_id, product_id, quantity, price)` and accumulating
`total_amount += price * quantity`.  Returns the items, the accumulated total
(in cents), and the next draw position. -/
def genItems (g : Nat → Nat) : Nat → Nat → Nat → List OrderItem × Nat × Nat
  | 0, pos, _ => ([], 0, pos)
  | n + 1, pos, oid =>
    let prod := pickProduct g pos
    let quantity := 1 + g (pos + 1) % 3
    let r := genItems g n (pos + 2) oid
    (⟨oid, prod.product_id, quantity, prod.price⟩ :: r.1,
     prod.price * quantity + r.2.1, r.2.2)

/-- The order-generation loop: `n` orders starting at id `oid`, each drawing
`customer_id = randint(1, nCust+1)`, `order_date = randint(0, 730)` days after
2021-01-01, `num_items = randint(1, 6)`, then its items; the order stores
`round(total_amount, 2)`, which in cents is the exact accumulated total.
Returns `(orders, order_items, next draw position)`. -/
def genOrders (g : Nat → Nat) (nCust : Nat) : Nat → Nat → Nat → List Order × List OrderItem × Nat
  | 0, _, pos => ([], [], pos)
  | n + 1, oid, pos =>
    let customer_id := 1 + g pos % nCust
    let orderDay := g (pos + 1) % 730
    let numItems := 1 + g (pos + 2) % 5
    let ri := genItems g numItems (pos + 3) oid
    let rest := genOrders g nCust n (oid + 1) ri.2.2
    (⟨oid, customer_id, orderDay, ri.2.1⟩ :: rest.1, ri.1 ++ rest.2.1, rest.2.2)

/-- The four generated tables. -/
structure Dataset where
  customers : List Customer
  productsTab : List Product
  orders : List Order
  orderItems : List OrderItem
deriving DecidableEq

/-- The whole synthetic-data generation pass of the script: 200 customers
(consuming draws 0..199), the fixed catalog, then 1000 orders with ids from 1
(consuming the subsequent draws). -/
def genDataset (g : Nat → Nat) : Dataset :=
  ⟨genCustomers g numCustomers 0 1, products,
   (genOrders g numCustomers numOrders 1 numCustomers).1,
   (genOrders g numCustomers numOrders 1 numCustomers).2.1⟩

/-! ## Analytical queries

The four SQL queries are embedded by their semantics over the generated tables.
`ORDER BY ... DESC LIMIT 10` with no secondary sort key does not determine the
relative order of rows with equal sort keys, so the top-spenders, best-products
and segmentation queries are embedded *relationally*: a predicate holds of every
result table the SQL contract admits (some arrangement of the grouped rows that
is sorted on the sort key, truncated to 10 rows).  The monthly-trend query sorts
on its (duplicate-free) group key, so its result is deterministic and embedded
as a function. -/

/-- Month lengths of a non-leap year. -/
def monthLengths : List Nat := [31, 28, 31, 30, 31, 30, 31, 31, 30, 31, 30, 31]

/-- 1-based month of a 0-based day-of-year, walking the month lengths. -/
def monthOfDoy : List Nat → Nat → Nat → Nat
  | [], _, m => m
  | l :: ls, d, m => if d < l then m else monthOfDoy ls (d - l) (m + 1)

/-- The linearised month `year * 12 + month` of a day offset from 2021-01-01
(2021 and 2022 are non-leap, so a year is 365 days on the generator's 730-day
window).  `strftime('%Y-%m', order_date)` produces zero-padded `"YYYY-MM"`
strings, whose lexicographic order and equality agree with this number's order
and equality on the window, so grouping and sorting on it are faithful. -/
def monthKey (day : Nat) : Nat :=
  (2021 + day / 365) * 12 + monthOfDoy monthLengths (day % 365) 1

/-- Query 2 (`query_monthly_sales`): group `Orders` by
`strftime('%Y-%m', order_date)`, `SUM(total_amount)` per group,
`ORDER BY order_month` ascending. -/
def monthlySales (orders : List Order) : List (Nat × Nat) :=
  (((orders.map fun o => monthKey o.order_day).dedup).insertionSort (· ≤ ·)).map
    fun k => (k, ((orders.filter fun o => monthKey o.order_day = k).map
      fun o => o.total_amount).sum)

/-- The CTE `CustomerSpending` of query 1: `Customers JOIN Orders` on
`customer_id`, grouped by customer, with `SUM(o.total_amount)`.  The grouping
key is `(c.customer_id, c.name)`, and `name` is a function of `customer_id` for
rows of one `Customers` table, so groups are per customer row with at least one
order; each group is represented as `(customer_id, total_spent)`. -/
def customerSpending (customers : List Customer) (orders : List Order) : List (Nat × Nat) :=
  (customers.filter fun c => orders.any fun o => o.customer_id = c.customer_id).map
    fun c => (c.customer_id,
      ((orders.filter fun o => o.customer_id = c.customer_id).map
        fun o => o.total_amount).sum)

/-- Query 1 (`query_top_customers`) admits `result` iff `result` is the first 10
rows of some arrangement of the `CustomerSpending` groups that is sorted by
`total_spent DESC` — all the SQL `ORDER BY total_spent DESC LIMIT 10` contract
guarantees, the order of rows with equal `total_spent` being unspecified. -/
def TopCustomersPossible (customers : List Customer) (orders : List Order)
    (result : List (Nat × Nat)) : Prop :=
  ∃ l : List (Nat × Nat), l.Perm (customerSpending customers orders) ∧
    l.Pairwise (fun a b => b.2 ≤ a.2) ∧ result = l.take 10

/-- The groups of query 3: `OrderItems JOIN Products` on `product_id`, grouped
by `(p.name, p.category)` with `SUM(oi.quantity)`.  Catalog names are pairwise
distinct, so groups are per catalog product with at least one line item; each
group is represented as `(product_id, total_quantity)`. -/
def productQuantity (items : List OrderItem) : List (Nat × Nat) :=
  (products.filter fun p => items.any fun it => it.product_id = p.product_id).map
    fun p => (p.product_id,
      ((items.filter fun it => it.product_id = p.product_id).map
        fun it => it.quantity).sum)

/-- Query 3 (`query_best_products`) admits `result` iff `result` is the first 10
rows of some arrangement of the product groups sorted by `total_quantity DESC`. -/
def BestProductsPossible (items : List OrderItem) (result : List (Nat × Nat)) : Prop :=
  ∃ l : List (Nat × Nat), l.Perm (productQuantity items) ∧
    l.Pairwise (fun a b => b.2 ≤ a.2) ∧ result = l.take 10

/-- The CTE `CustomerOrders` of query 4: `Customers JOIN Orders`, grouped by
customer, with `AVG(o.total_amount)`; the mean is modelled as an exact rational
(cents).  Each group is `(customer_id, avg_order_value)`. -/
def customerAvg (customers : List Customer) (orders : List Order) : List (Nat × ℚ) :=
  (customers.filter fun c => orders.any fun o => o.customer_id = c.customer_id).map
    fun c => (c.customer_id,
      (((orders.filter fun o => o.customer_id = c.customer_id).map
        fun o => (o.total_amount : ℚ)).sum) /
      ((orders.filter fun o => o.customer_id = c.customer_id).length : ℚ))

/-- `RANK() OVER (ORDER BY avg_order_value DESC)`: one plus the number of rows
with a strictly greater value — SQL's standard (competition) rank, under which
tied rows share a rank and the next rank skips accordingly. -/
def rankOf (groups : List (Nat × ℚ)) (v : ℚ) : Nat :=
  1 + (groups.filter fun p => v < p.2).length

/-- The rows of query 4 before its final `ORDER BY`/`LIMIT`:
`(customer_id, avg_order_value, spending_rank)` for each `CustomerOrders` group. -/
def segmentationRows (customers : List Customer) (orders : List Order) :
    List (Nat × ℚ × Nat) :=
  (customerAvg customers orders).map
    fun p => (p.1, p.2, rankOf (customerAvg customers orders) p.2)

/-- Query 4 (`query_customer_segmentation`) admits `result` iff `result` is the
first 10 rows of some arrangement of the ranked rows sorted by
`spending_rank` ascending. -/
def SegmentationPossible (customers : List Customer) (orders : List Order)
    (result : List (Nat × ℚ × Nat)) : Prop :=
  ∃ l : List (Nat × ℚ × Nat), l.Perm (segmentationRows customers orders) ∧
    l.Pairwise (fun a b => a.2.2 ≤ b.2.2) ∧ result = l.take 10

/-! ## Store, renderer and pipeline

The filesystem is modelled as the set of existing directories plus the list of
written files; `plt.savefig(path)` succeeds iff the directory of `path` exists
(matplotlib does not create directories), and failures abort the remaining
renders (the scripts have no handlers and no retries). -/

/-- The directories that exist and the files written so far. -/
structure FS where
  dirs : List String
  files : List String
deriving DecidableEq

/-- `OUTPUT_DIR = "sql_analysis_images"`. -/
def OUTPUT_DIR : String := "sql_analysis_images"

/-- `plt.savefig(os.path.join(dir, file))`: writes the file if the directory
exists, otherwise fails with the I/O error (no retry, no creation). -/
def savefig (fs : FS) (dir file : String) : Except String FS :=
  if dir ∈ fs.dirs then
    Except.ok ⟨fs.dirs, fs.files ++ [dir ++ "/" ++ file]⟩
  else
    Except.error ("No such file or directory: " ++ dir ++ "/" ++ file)

/-- Lines 36–39 of `sql_data_analysis.py`:
`if not os.path.exists(OUTPUT_DIR): os.makedirs(OUTPUT_DIR)`. -/
def ensureOutputDir (fs : FS) : FS :=
  if OUTPUT_DIR ∈ fs.dirs then fs else ⟨OUTPUT_DIR :: fs.dirs, fs.files⟩

/-- The four image file names written by `sql_data_analysis.py`, in script
order. -/
def imageNames : List String :=
  ["monthly_sales_trend.png", "best_selling_products.png",
   "top_customers_spending.png", "customer_segmentation.png"]

/-- The render pass of `sql_data_analysis.py`: the output directory was ensured
at script start, then the four plots are saved into it in sequence, any
failure aborting the rest. -/
def sqlAnalysisRenders (fs : FS) : Except String FS :=
  imageNames.foldlM (fun s nm => savefig s OUTPUT_DIR nm) (ensureOutputDir fs)

/-- `create_monthly_sales_trend` of `generate_visualizations.py`: saves its plot
to `'images/monthly_sales_trend.png'` without ever creating the `images`
directory. -/
def create_monthly_sales_trend (fs : FS) : Except String FS :=
  savefig fs "images" "monthly_sales_trend.png"

/-- The `__main__` block of `generate_visualizations.py`: the four renders in
sequence, each a bare `plt.savefig('images/...')` with no directory creation
and no handler, so the first failure aborts the rest. -/
def generateVisualizationsMain (fs : FS) : Except String FS :=
  ["monthly_sales_trend.png", "customer_segmentation.png",
   "best_selling_products.png", "top_customers_spending.png"].foldlM
    (fun s nm => savefig s "images" nm) fs

/-- The four tables of the SQLite store `online_store.db`. -/
structure Store where
  customersTab : List Customer
  productsTab : List Product
  ordersTab : List Order
  orderItemsTab : List OrderItem
deriving DecidableEq

/-- Lines 48–51: `DROP TABLE IF EXISTS` for OrderItems, Orders, Products,
Customers — whatever the store held before, all four tables are removed. -/
def dropAllTables (_s : Store) : Store := ⟨[], [], [], []⟩

/-- One full run of `sql_data_analysis.py` over ambient draw stream `g`,
starting from store state `s` and filesystem `fs`: drop and rebuild the tables,
insert the generated dataset, then render the four images.  Returns the final
store and the filesystem outcome. -/
def runPipeline (s : Store) (fs : FS) (g : Nat → Nat) : Store × Except String FS :=
  let s0 := dropAllTables s
  let d := genDataset g
  (⟨d.customers ++ s0.customersTab, d.productsTab ++ s0.productsTab,
    d.orders ++ s0.ordersTab, d.orderItems ++ s0.orderItemsTab⟩,
   sqlAnalysisRenders fs)

/-- `OUTPUT_DIR/name` for the four images, in script order. -/
def imagePaths : List String := imageNames.map fun nm => OUTPUT_DIR ++ "/" ++ nm

/-! ## Generator lemmas -/

theorem genCustomers_length (g : Nat → Nat) (n : Nat) :
    ∀ (pos i : Nat), (genCustomers g n pos i).length = n := by
  induction n with
  | zero => intro pos i; rfl
  | succ n ih => intro pos i; simp [genCustomers, ih]

theorem genCustomers_exists_id (g : Nat → Nat) (n : Nat) :
    ∀ (pos i j : Nat), i ≤ j → j < i + n →
      ∃ c ∈ genCustomers g n pos i, c.customer_id = j := by
  induction n with
  | zero => intro pos i j h1 h2; omega
  | succ n ih =>
    intro pos i j h1 h2
    by_cases hj : j = i
    · exact ⟨_, List.mem_cons_self _ _, hj.symm⟩
    · obtain ⟨c, hc, hcj⟩ := ih (pos + 1) (i + 1) j (by omega) (by omega)
      exact ⟨c, List.mem_cons_of_mem _ hc, hcj⟩

theorem pickProduct_mem (g : Nat → Nat) (pos : Nat) : pickProduct g pos ∈ products :=
  List.get_mem products _ _

theorem genItems_length (g : Nat → Nat) (n : Nat) :
    ∀ (pos oid : Nat), (genItems g n pos oid).1.length = n := by
  induction n with
  | zero => intro pos oid; rfl
  | succ n ih => intro pos oid; simp [genItems, ih]

theorem genItems_order_id (g : Nat → Nat) (n : Nat) :
    ∀ (pos oid : Nat), ∀ it ∈ (genItems g n pos oid).1, it.order_id = oid := by
  induction n with
  | zero => intro pos oid it h; cases h
  | succ n ih =>
    intro pos oid it h
    simp only [genItems] at h
    rcases List.mem_cons.1 h with h | h
    · subst h; rfl
    · exact ih _ _ _ h

theorem genItems_item_spec (g : Nat → Nat) (n : Nat) :
    ∀ (pos oid : Nat), ∀ it ∈ (genItems g n pos oid).1,
      (∃ p ∈ products, it.product_id = p.product_id ∧ it.unit_price = p.price) ∧
        1 ≤ it.quantity ∧ it.quantity ≤ 3 := by
  induction n with
  | zero => intro pos oid it h; cases h
  | succ n ih =>
    intro pos oid it h
    simp only [genItems] at h
    rcases List.mem_cons.1 h with h | h
    · subst h
      refine ⟨⟨pickProduct g pos, pickProduct_mem g pos, rfl, rfl⟩, ?_, ?_⟩
      · exact Nat.le_add_right 1 _
      · show 1 + g (pos + 1) % 3 ≤ 3
        have := Nat.mod_lt (g (pos + 1)) (show 0 < 3 by decide)
        omega
    · exact ih _ _ _ h

theorem genItems_total (g : Nat → Nat) (n : Nat) :
    ∀ (pos oid : Nat), (genItems g n pos oid).2.1 =
      ((genItems g n pos oid).1.map fun it => it.unit_price * it.quantity).sum := by
  induction n with
  | zero => intro pos oid; rfl
  | succ n ih => intro pos oid; simp [genItems, ih]

theorem products_price_pos : ∀ p ∈ products, 0 < p.price := by decide

theorem genItems_total_pos (g : Nat → Nat) (n pos oid : Nat) (h : 0 < n) :
    0 < (genItems g n pos oid).2.1 := by
  cases n with
  | zero => cases h
  | succ n =>
    have hp : 0 < (pickProduct g pos).price :=
      products_price_pos _ (pickProduct_mem g pos)
    have hq : 0 < 1 + g (pos + 1) % 3 := by omega
    simp only [genItems]
    exact Nat.add_pos_left (Nat.mul_pos hp hq) _

theorem genOrders_length (g : Nat → Nat) (nc n : Nat) :
    ∀ (oid pos : Nat), (genOrders g nc n oid pos).1.length = n := by
  induction n with
  | zero => intro oid pos; rfl
  | succ n ih => intro oid pos; simp [genOrders, ih]

theorem genOrders_order_id_bounds (g : Nat → Nat) (nc n : Nat) :
    ∀ (oid pos : Nat), ∀ o ∈ (genOrders g nc n oid pos).1,
      oid ≤ o.order_id ∧ o.order_id < oid + n := by
  induction n with
  | zero => intro oid pos o h; cases h
  | succ n ih =>
    intro oid pos o h
    simp only [genOrders] at h
    rcases List.mem_cons.1 h with h | h
    · subst h; constructor <;> simp
    · have := ih (oid + 1) _ o h
      omega

theorem genOrders_item_order_id_ge (g : Nat → Nat) (nc n : Nat) :
    ∀ (oid pos : Nat), ∀ it ∈ (genOrders g nc n oid pos).2.1, oid ≤ it.order_id := by
  induction n with
  | zero => intro oid pos it h; cases h
  | succ n ih =>
    intro oid pos it h
    simp only [genOrders] at h
    rcases List.mem_append.1 h with h | h
    · exact (genItems_order_id g _ _ _ it h).ge
    · have := ih (oid + 1) _ it h
      omega

theorem genOrders_item_has_order (g : Nat → Nat) (nc n : Nat) :
    ∀ (oid pos : Nat), ∀ it ∈ (genOrders g nc n oid pos).2.1,
      ∃ o ∈ (genOrders g nc n oid pos).1, o.order_id = it.order_id := by
  induction n with
  | zero => intro oid pos it h; cases h
  | succ n ih =>
    intro oid pos it h
    simp only [genOrders] at h ⊢
    rcases List.mem_append.1 h with h | h
    · exact ⟨_, List.mem_cons_self _ _, (genItems_order_id g _ _ _ it h).symm⟩
    · obtain ⟨o, ho, hoe⟩ := ih (oid + 1) _ it h
      exact ⟨o, List.mem_cons_of_mem _ ho, hoe⟩

theorem genOrders_item_spec (g : Nat → Nat) (nc n : Nat) :
    ∀ (oid pos : Nat), ∀ it ∈ (genOrders g nc n oid pos).2.1,
      (∃ p ∈ products, it.product_id = p.product_id ∧ it.unit_price = p.price) ∧
        1 ≤ it.quantity ∧ it.quantity ≤ 3 := by
  induction n with
  | zero => intro oid pos it h; cases h
  | succ n ih =>
    intro oid pos it h
    simp only [genOrders] at h
    rcases List.mem_append.1 h with h | h
    · exact genItems_item_spec g _ _ _ it h
    · exact ih (oid + 1) _ it h

theorem genOrders_customer_bounds (g : Nat → Nat) (nc n : Nat) (hnc : 0 < nc) :
    ∀ (oid pos : Nat), ∀ o ∈ (genOrders g nc n oid pos).1,
      1 ≤ o.customer_id ∧ o.customer_id ≤ nc := by
  induction n with
  | zero => intro oid pos o h; cases h
  | succ n ih =>
    intro oid pos o h
    simp only [genOrders] at h
    rcases List.mem_cons.1 h with h | h
    · subst h
      have := Nat.mod_lt (g pos) hnc
      simp only
      omega
    · exact ih (oid + 1) _ o h

theorem genOrders_items_length (g : Nat → Nat) (nc n : Nat) :
    ∀ (oid pos : Nat), n ≤ (genOrders g nc n oid pos).2.1.length ∧
      (genOrders g nc n oid pos).2.1.length ≤ 5 * n := by
  induction n with
  | zero => intro oid pos; exact ⟨Nat.le_refl 0, Nat.zero_le 0⟩
  | succ n ih =>
    intro oid pos
    have hlen := genItems_length g (1 + g (pos + 2) % 5) (pos + 3) oid
    have hmod := Nat.mod_lt (g (pos + 2)) (show 0 < 5 by decide)
    have := ih (oid + 1) (genItems g (1 + g (pos + 2) % 5) (pos + 3) oid).2.2
    simp only [genOrders, List.length_append]
    omega

theorem genOrders_total_pos (g : Nat → Nat) (nc n : Nat) :
    ∀ (oid pos : Nat), ∀ o ∈ (genOrders g nc n oid pos).1, 0 < o.total_amount := by
  induction n with
  | zero => intro oid pos o h; cases h
  | succ n ih =>
    intro oid pos o h
    simp only [genOrders] at h
    rcases List.mem_cons.1 h with h | h
    · subst h
      exact genItems_total_pos g _ _ _ (by omega)
    · exact ih (oid + 1) _ o h

theorem genOrders_total_eq_filter (g : Nat → Nat) (nc n : Nat) :
    ∀ (oid pos : Nat), ∀ o ∈ (genOrders g nc n oid pos).1,
      o.total_amount =
        (((genOrders g nc n oid pos).2.1.filter fun it => it.order_id = o.order_id).map
          fun it => it.unit_price * it.quantity).sum := by
  induction n with
  | zero => intro oid pos o h; cases h
  | succ n ih =>
    intro oid pos o h
    simp only [genOrders] at h ⊢
    rcases List.mem_cons.1 h with h | h
    · subst h
      rw [List.filter_append]
      have h1 : (genItems g (1 + g (pos + 2) % 5) (pos + 3) oid).1.filter
          (fun it => it.order_id = oid) =
          (genItems g (1 + g (pos + 2) % 5) (pos + 3) oid).1 :=
        List.filter_eq_self.2 fun it hit => by
          simp [genItems_order_id g _ _ _ it hit]
      have h2 : ((genOrders g nc n (oid + 1)
            (genItems g (1 + g (pos + 2) % 5) (pos + 3) oid).2.2).2.1.filter
          fun it => it.order_id = oid) = [] :=
        List.filter_eq_nil_iff.2 fun it hit => by
          have := genOrders_item_order_id_ge g nc n (oid + 1) _ it hit
          simp only [decide_eq_true_eq]
          omega
      simp only [h1, h2, List.append_nil]
      exact genItems_total g _ _ _
    · have hgt : oid + 1 ≤ o.order_id :=
        (genOrders_order_id_bounds g nc n (oid + 1) _ o h).1
      rw [List.filter_append]
      have h1 : (genItems g (1 + g (pos + 2) % 5) (pos + 3) oid).1.filter
          (fun it => it.order_id = o.order_id) = [] :=
        List.filter_eq_nil_iff.2 fun it hit => by
          have := genItems_order_id g _ _ _ it hit
          simp only [decide_eq_true_eq]
          omega
      simp only [h1, List.nil_append]
      exact ih (oid + 1) _ o h

/-! ## Renderer and pipeline lemmas -/

theorem ensureOutputDir_mem (fs : FS) : OUTPUT_DIR ∈ (ensureOutputDir fs).dirs := by
  by_cases h : OUTPUT_DIR ∈ fs.dirs <;> simp [ensureOutputDir, h]

theorem ensureOutputDir_files (fs : FS) : (ensureOutputDir fs).files = fs.files := by
  by_cases h : OUTPUT_DIR ∈ fs.dirs <;> simp [ensureOutputDir, h]

theorem savefig_of_mem {fs : FS} {dir : String} (nm : String) (h : dir ∈ fs.dirs) :
    savefig fs dir nm = Except.ok ⟨fs.dirs, fs.files ++ [dir ++ "/" ++ nm]⟩ := by
  simp [savefig, h]

theorem savefig_fold (nms : List String) :
    ∀ fs : FS, OUTPUT_DIR ∈ fs.dirs →
      nms.foldlM (fun s nm => savefig s OUTPUT_DIR nm) fs =
        Except.ok ⟨fs.dirs, fs.files ++ nms.map fun nm => OUTPUT_DIR ++ "/" ++ nm⟩ := by
  induction nms with
  | nil =>
    intro fs h
    rw [List.foldlM_nil, List.map_nil, List.append_nil]
    rfl
  | cons nm nms ih =>
    intro fs h
    have step : savefig fs OUTPUT_DIR nm =
        Except.ok ⟨fs.dirs, fs.files ++ [OUTPUT_DIR ++ "/" ++ nm]⟩ :=
      savefig_of_mem nm h
    have tail := ih ⟨fs.dirs, fs.files ++ [OUTPUT_DIR ++ "/" ++ nm]⟩ h
    rw [List.foldlM_cons, step]
    show List.foldlM (fun s nm => savefig s OUTPUT_DIR nm)
      (⟨fs.dirs, fs.files ++ [OUTPUT_DIR ++ "/" ++ nm]⟩ : FS) nms = _
    rw [tail]
    simp

theorem sqlAnalysisRenders_eq (fs : FS) :
    sqlAnalysisRenders fs = Except.ok ⟨(ensureOutputDir fs).dirs, fs.files ++ imagePaths⟩ := by
  have h := savefig_fold imageNames (ensureOutputDir fs) (ensureOutputDir_mem fs)
  rw [sqlAnalysisRenders, h, ensureOutputDir_files]
  rfl

theorem generateVisualizationsMain_error (fs : FS) (h : "images" ∉ fs.dirs) :
    generateVisualizationsMain fs =
      Except.error "No such file or directory: images/monthly_sales_trend.png" := by
  have h1 : savefig fs "images" "monthly_sales_trend.png" =
      Except.error "No such file or directory: images/monthly_sales_trend.png" := by
    simp [savefig, h]
  simp only [generateVisualizationsMain, List.foldlM_cons, h1]
  rfl

theorem products_price_unique : ∀ p ∈ products, ∀ q ∈ products,
    p.product_id = q.product_id → p.price = q.price := by decide

/-! ## Claim theorems -/

/-- C1: for every order produced by the order-generation loop (any draw stream,
any counts, any starting id and draw position), the stored `total_amount`
equals the sum of `quantity * unit_price` over the line items generated for it
(in exact cents, i.e. within rounding to cents). -/
theorem C1_order_total_consistent (g : Nat → Nat) (nCust n oid pos : Nat) (o : Order)
    (ho : o ∈ (genOrders g nCust n oid pos).1) :
    o.total_amount =
      (((genOrders g nCust n oid pos).2.1.filter fun it => it.order_id = o.order_id).map
        fun it => it.unit_price * it.quantity).sum :=
  genOrders_total_eq_filter g nCust n oid pos o ho

theorem C1_order_total_consistent_witness :
    (⟨1, 1, 0, 69999⟩ : Order) ∈ (genOrders (fun _ => 0) 1 1 1 0).1 ∧
    (69999 : Nat) =
      (((genOrders (fun _ => 0) 1 1 1 0).2.1.filter fun it => it.order_id = 1).map
        fun it => it.unit_price * it.quantity).sum :=
  ⟨by decide, C1_order_total_consistent (fun _ => 0) 1 1 1 0 ⟨1, 1, 0, 69999⟩ (by decide)⟩

/-- C2: referential integrity of the generated dataset, for every draw stream:
every order's `customer_id` is the id of a generated customer, and every line
item's `order_id` and `product_id` are the ids of a generated order and of a
catalog product. -/
theorem C2_referential_integrity (g : Nat → Nat) :
    (∀ o ∈ (genDataset g).orders,
      ∃ c ∈ (genDataset g).customers, c.customer_id = o.customer_id) ∧
    ∀ it ∈ (genDataset g).orderItems,
      (∃ o ∈ (genDataset g).orders, o.order_id = it.order_id) ∧
      ∃ p ∈ (genDataset g).productsTab, p.product_id = it.product_id := by
  constructor
  · intro o ho
    have hb := genOrders_customer_bounds g numCustomers numOrders
      (by decide) 1 numCustomers o ho
    obtain ⟨c, hc, hce⟩ := genCustomers_exists_id g numCustomers 0 1 o.customer_id
      (by omega) (by omega)
    exact ⟨c, hc, hce⟩
  · intro it hit
    refine ⟨genOrders_item_has_order g numCustomers numOrders 1 numCustomers it hit, ?_⟩
    obtain ⟨⟨p, hp, hpe, _⟩, _⟩ :=
      genOrders_item_spec g numCustomers numOrders 1 numCustomers it hit
    exact ⟨p, hp, hpe.symm⟩

theorem C2_referential_integrity_witness :
    (∃ c ∈ (genDataset fun _ => 0).customers, c.customer_id = 1) ∧
    (∃ o ∈ (genDataset fun _ => 0).orders, o.order_id = 1) ∧
    ∃ p ∈ (genDataset fun _ => 0).productsTab, p.product_id = 1 :=
  ⟨(C2_referential_integrity fun _ => 0).1 ⟨1, 1, 0, 69999⟩ (by decide),
   ((C2_referential_integrity fun _ => 0).2 ⟨1, 1, 1, 69999⟩ (by decide)).1,
   ((C2_referential_integrity fun _ => 0).2 ⟨1, 1, 1, 69999⟩ (by decide)).2⟩

/-- C3: the script never calls `np.random.seed` — no seed can be supplied — and
the generated tables are a non-constant function of the ambient RNG draw
stream, so two runs starting from different ambient RNG states (which is what
unseeded runs are) produce different tables: the determinism the spec demands
is not implemented.  Witnessed by two concrete draw streams on which the
generated `Customers` tables already differ. -/
theorem C3_generator_depends_on_ambient_rng :
    (genDataset fun _ => 0).customers ≠ (genDataset fun _ => 1).customers := by
  decide

/-- C8: one full run, from any prior store state: the result is independent of
the prior state (the four tables are dropped and rebuilt), the rebuilt store
has exactly 200 customers, the 10 catalog products, 1000 orders and between
1000 and 5000 line items, and rendering writes exactly the 4 image files
(`imagePaths`, all inside `OUTPUT_DIR`) to the filesystem. -/
theorem C8_full_run_counts (s1 s2 : Store) (fs : FS) (g : Nat → Nat) :
    runPipeline s1 fs g = runPipeline s2 fs g ∧
    (runPipeline s1 fs g).1.customersTab.length = 200 ∧
    (runPipeline s1 fs g).1.productsTab.length = 10 ∧
    (runPipeline s1 fs g).1.ordersTab.length = 1000 ∧
    1000 ≤ (runPipeline s1 fs g).1.orderItemsTab.length ∧
    (runPipeline s1 fs g).1.orderItemsTab.length ≤ 5000 ∧
    (runPipeline s1 fs g).2 = Except.ok ⟨(ensureOutputDir fs).dirs, fs.files ++ imagePaths⟩ ∧
    imagePaths.length = 4 ∧ imagePaths = imageNames.map fun nm => OUTPUT_DIR ++ "/" ++ nm := by
  refine ⟨rfl, ?_, ?_, ?_, ?_, ?_, sqlAnalysisRenders_eq fs, rfl, rfl⟩
  · show ((genDataset g).customers ++ []).length = 200
    simp [genDataset, genCustomers_length, numCustomers]
  · show ((genDataset g).productsTab ++ []).length = 10
    simp [genDataset, products]
  · show ((genDataset g).orders ++ []).length = 1000
    simp [genDataset, genOrders_length, numOrders]
  · show 1000 ≤ ((genDataset g).orderItems ++ []).length
    have h := (genOrders_items_length g numCustomers numOrders 1 numCustomers).1
    simp only [genDataset, List.append_nil]
    have : numOrders = 1000 := rfl
    omega
  · show ((genDataset g).orderItems ++ []).length ≤ 5000
    have h := (genOrders_items_length g numCustomers numOrders 1 numCustomers).2
    simp only [genDataset, List.append_nil]
    have : numOrders = 1000 := rfl
    omega

/-- C9 counterexample: `create_monthly_sales_trend` of
`generate_visualizations.py` saves to `'images/...'` without ever creating the
directory, so on a filesystem where `images` does not exist this render fails —
refuting "a render never fails merely because the output directory did not
exist beforehand". -/
theorem C9_render_counterexample :
    create_monthly_sales_trend ⟨[], []⟩ =
      Except.error "No such file or directory: images/monthly_sales_trend.png" := rfl

/-- C9 amended: the renders of `sql_data_analysis.py` write their PNGs into
`OUTPUT_DIR`, which the script creates at startup when absent, and they succeed
from any initial filesystem; the renders of `generate_visualizations.py` write
into `images/` without creating it and the first render fails fatally (aborting
the rest, no retry) when that directory is absent.  In both scripts a failure
is surfaced to the caller as the `Except.error` result. -/
theorem C9_render_directories (fs : FS) :
    sqlAnalysisRenders fs = Except.ok ⟨(ensureOutputDir fs).dirs, fs.files ++ imagePaths⟩ ∧
    (OUTPUT_DIR ∉ fs.dirs → (ensureOutputDir fs).dirs = OUTPUT_DIR :: fs.dirs) ∧
    ("images" ∉ fs.dirs →
      generateVisualizationsMain fs =
        Except.error "No such file or directory: images/monthly_sales_trend.png") := by
  refine ⟨sqlAnalysisRenders_eq fs, fun h => ?_, fun h => generateVisualizationsMain_error fs h⟩
  simp [ensureOutputDir, h]

theorem C9_render_directories_witness :
    (ensureOutputDir ⟨[], []⟩).dirs = OUTPUT_DIR :: [] ∧
    generateVisualizationsMain ⟨[], []⟩ =
      Except.error "No such file or directory: images/monthly_sales_trend.png" :=
  ⟨(C9_render_directories ⟨[], []⟩).2.1 (by decide),
   (C9_render_directories ⟨[], []⟩).2.2 (by decide)⟩

/-- C10: every line item generated by the order loop snapshots the current
catalog price — any catalog product with the item's `product_id` has exactly
the item's `unit_price` — and consequently (quantities and prices being
positive, orders having at least one item) every generated order has a
strictly positive `total_amount`. -/
theorem C10_price_snapshot_and_total_pos (g : Nat → Nat) (nCust n oid pos : Nat) :
    (∀ it ∈ (genOrders g nCust n oid pos).2.1,
      ∀ p ∈ products, p.product_id = it.product_id → it.unit_price = p.price) ∧
    ∀ o ∈ (genOrders g nCust n oid pos).1, 0 < o.total_amount := by
  constructor
  · intro it hit p hp hpe
    obtain ⟨⟨q, hq, hqe, hqp⟩, _⟩ := genOrders_item_spec g nCust n oid pos it hit
    rw [hqp]
    exact (products_price_unique p hp q hq (hpe.trans hqe)).symm
  · exact genOrders_total_pos g nCust n oid pos

theorem C10_price_snapshot_and_total_pos_witness :
    (⟨1, 1, 1, 69999⟩ : OrderItem).unit_price =
      (⟨1, "Smartphone", "Electronics", 69999⟩ : Product).price ∧
    0 < (⟨1, 1, 0, 69999⟩ : Order).total_amount :=
  ⟨(C10_price_snapshot_and_total_pos (fun _ => 0) 1 1 1 0).1 ⟨1, 1, 1, 69999⟩ (by decide)
      ⟨1, "Smartphone", "Electronics", 69999⟩ (by decide) (by decide),
   (C10_price_snapshot_and_total_pos (fun _ => 0) 1 1 1 0).2 ⟨1, 1, 0, 69999⟩ (by decide)⟩

/-- C5: the monthly-trend query returns strictly increasing month keys that are
exactly the distinct months of the order dates, and each row's value is the sum
of `total_amount` over the orders of that month.  Stated for every `Orders`
table, hence in particular for every generated one. -/
theorem C5_monthly_sales_trend (orders : List Order) :
    ((monthlySales orders).map Prod.fst).Pairwise (· < ·) ∧
    (∀ k, k ∈ (monthlySales orders).map Prod.fst ↔
      ∃ o ∈ orders, monthKey o.order_day = k) ∧
    ∀ p ∈ monthlySales orders,
      p.2 = ((orders.filter fun o => monthKey o.order_day = p.1).map
        fun o => o.total_amount).sum := by
  have hmap : (monthlySales orders).map Prod.fst =
      ((orders.map fun o => monthKey o.order_day).dedup).insertionSort (· ≤ ·) := by
    rw [monthlySales, List.map_map]
    exact List.map_id' _
  have hperm := List.perm_insertionSort (· ≤ ·)
    ((orders.map fun o => monthKey o.order_day).dedup)
  refine ⟨?_, ?_, ?_⟩
  · rw [hmap]
    have hsorted : (((orders.map fun o => monthKey o.order_day).dedup).insertionSort
        (· ≤ ·)).Pairwise (· ≤ ·) := List.sorted_insertionSort (· ≤ ·) _
    have hnodup : (((orders.map fun o => monthKey o.order_day).dedup).insertionSort
        (· ≤ ·)).Nodup := hperm.nodup_iff.2 (List.nodup_dedup _)
    exact (hsorted.and hnodup).imp fun h => lt_of_le_of_ne h.1 h.2
  · intro k
    rw [hmap, hperm.mem_iff, List.mem_dedup, List.mem_map]
  · intro p hp
    simp only [monthlySales] at hp
    obtain ⟨k, hk, rfl⟩ := List.mem_map.1 hp
    rfl

theorem C5_monthly_sales_trend_witness :
    ((24253 : Nat), (100 : Nat)).2 =
      ((([⟨1, 1, 0, 100⟩] : List Order).filter fun o => monthKey o.order_day = 24253).map
        fun o => o.total_amount).sum :=
  (C5_monthly_sales_trend [⟨1, 1, 0, 100⟩]).2.2 (24253, 100) (by decide)

/-- C4 counterexample: `query_top_customers` orders only by `total_spent DESC`
with no secondary key, so for a two-customer table with tied totals the SQL
contract admits the result that lists customer 2 before customer 1 — ties are
not broken by customer identifier ascending, refuting that part of the claim. -/
theorem C4_tie_break_counterexample :
    TopCustomersPossible
      [⟨1, "Customer 1", "customer1@example.com", 0⟩,
       ⟨2, "Customer 2", "customer2@example.com", 0⟩]
      [⟨1, 1, 0, 10000⟩, ⟨2, 2, 0, 10000⟩]
      [(2, 10000), (1, 10000)] ∧
    ¬ ([(2, 10000), (1, 10000)] : List (Nat × Nat)).Pairwise
        (fun a b => b.2 < a.2 ∨ (a.2 = b.2 ∧ a.1 < b.1)) := by
  constructor
  · refine ⟨[(2, 10000), (1, 10000)], ?_, by decide, rfl⟩
    have h : customerSpending
        [⟨1, "Customer 1", "customer1@example.com", 0⟩,
         ⟨2, "Customer 2", "customer2@example.com", 0⟩]
        [⟨1, 1, 0, 10000⟩, ⟨2, 2, 0, 10000⟩] = [(1, 10000), (2, 10000)] := by decide
    rw [h]
    exact List.Perm.swap _ _ _
  · decide

/-- C4 amended: every result the top-spenders query can return has at most 10
rows, is sorted by total spent descending (non-increasing), every `customer_id`
in it has at least one order, and each row is a customer with the sum of their
orders' `total_amount`; the relative order of rows with equal totals is
engine-dependent and not guaranteed to be by ascending customer id. -/
theorem C4_top_customers (customers : List Customer) (orders : List Order)
    (result : List (Nat × Nat)) (h : TopCustomersPossible customers orders result) :
    result.length ≤ 10 ∧
    result.Pairwise (fun a b => b.2 ≤ a.2) ∧
    (∀ p ∈ result, ∃ o ∈ orders, o.customer_id = p.1) ∧
    ∀ p ∈ result, ∃ c ∈ customers, p.1 = c.customer_id ∧
      p.2 = ((orders.filter fun o => o.customer_id = c.customer_id).map
        fun o => o.total_amount).sum := by
  obtain ⟨l, hperm, hsort, rfl⟩ := h
  have hsub : ∀ p ∈ l.take 10, p ∈ customerSpending customers orders := fun p hp =>
    hperm.subset (List.take_subset _ _ hp)
  refine ⟨by rw [List.length_take]; exact min_le_left _ _,
    List.Pairwise.sublist (List.take_sublist _ _) hsort, ?_, ?_⟩
  · intro p hp
    obtain ⟨c, hc, rfl⟩ := List.mem_map.1 (hsub p hp)
    have hc2 := (List.mem_filter.1 hc).2
    simp only [List.any_eq_true, decide_eq_true_eq] at hc2
    obtain ⟨o, ho, hoe⟩ := hc2
    exact ⟨o, ho, hoe⟩
  · intro p hp
    obtain ⟨c, hc, rfl⟩ := List.mem_map.1 (hsub p hp)
    exact ⟨c, (List.mem_filter.1 hc).1, rfl, rfl⟩

theorem C4_top_customers_witness :
    [((1 : Nat), (10000 : Nat))].length ≤ 10 ∧
    ∃ o ∈ [(⟨1, 1, 0, 10000⟩ : Order)], o.customer_id = 1 :=
  have hp : TopCustomersPossible [⟨1, "Customer 1", "customer1@example.com", 0⟩]
      [⟨1, 1, 0, 10000⟩] [(1, 10000)] :=
    ⟨[(1, 10000)], by decide, by decide, rfl⟩
  ⟨(C4_top_customers _ _ _ hp).1, (C4_top_customers _ _ _ hp).2.2.1 (1, 10000) (by decide)⟩

/-- C6: every result the best-selling-products query can return has at most 10
rows, is sorted by total quantity descending (non-increasing), has at most one
row per product, and each row is a catalog product with the sum of the
quantities of its line items. -/
theorem C6_best_products (items : List OrderItem) (result : List (Nat × Nat))
    (h : BestProductsPossible items result) :
    result.length ≤ 10 ∧
    result.Pairwise (fun a b => b.2 ≤ a.2) ∧
    (result.map Prod.fst).Nodup ∧
    ∀ p ∈ result, (∃ q ∈ products, q.product_id = p.1) ∧
      p.2 = ((items.filter fun it => it.product_id = p.1).map
        fun it => it.quantity).sum := by
  obtain ⟨l, hperm, hsort, rfl⟩ := h
  refine ⟨by rw [List.length_take]; exact min_le_left _ _,
    List.Pairwise.sublist (List.take_sublist _ _) hsort, ?_, ?_⟩
  · have h1 : ((productQuantity items).map Prod.fst).Nodup := by
      have h2 : ((products.filter fun p =>
          items.any fun it => it.product_id = p.product_id).map
            fun p => p.product_id).Nodup :=
        List.Nodup.sublist
          (List.Sublist.map _ (List.filter_sublist _))
          (by decide : (products.map fun p => p.product_id).Nodup)
      simpa [productQuantity, List.map_map, Function.comp] using h2
    have h3 : ((l.take 10).map Prod.fst).Nodup :=
      List.Nodup.sublist (List.Sublist.map _ (List.take_sublist _ _))
        ((hperm.map Prod.fst).nodup_iff.2 h1)
    exact h3
  · intro p hp
    obtain ⟨q, hq, rfl⟩ :=
      List.mem_map.1 (hperm.subset (List.take_subset _ _ hp))
    exact ⟨⟨q, (List.mem_filter.1 hq).1, rfl⟩, rfl⟩

theorem C6_best_products_witness :
    [((1 : Nat), (2 : Nat))].length ≤ 10 ∧
    ([((1 : Nat), (2 : Nat))].map Prod.fst).Nodup ∧
    ∃ q ∈ products, q.product_id = 1 :=
  have hp : BestProductsPossible [⟨1, 1, 2, 69999⟩] [(1, 2)] :=
    ⟨[(1, 2)], by decide, by decide, rfl⟩
  ⟨(C6_best_products _ _ hp).1, (C6_best_products _ _ hp).2.2.1,
   ((C6_best_products _ _ hp).2.2.2 (1, 2) (by decide)).1⟩

/-- C7: every result the segmentation query can return has at most 10 rows,
is sorted by `spending_rank` ascending, each row is a customer group carrying
its mean `total_amount` and the standard (competition) rank — one plus the
number of groups with strictly greater mean, so tied means share a rank and the
next rank skips — and rows with equal means have equal ranks. -/
theorem C7_customer_segmentation (customers : List Customer) (orders : List Order)
    (result : List (Nat × ℚ × Nat)) (h : SegmentationPossible customers orders result) :
    result.length ≤ 10 ∧
    result.Pairwise (fun a b => a.2.2 ≤ b.2.2) ∧
    (∀ r ∈ result, ∃ p ∈ customerAvg customers orders,
      r = (p.1, p.2, rankOf (customerAvg customers orders) p.2)) ∧
    ∀ r ∈ result, ∀ r2 ∈ result, r.2.1 = r2.2.1 → r.2.2 = r2.2.2 := by
  obtain ⟨l, hperm, hsort, rfl⟩ := h
  have hmem : ∀ r ∈ l.take 10, ∃ p ∈ customerAvg customers orders,
      r = (p.1, p.2, rankOf (customerAvg customers orders) p.2) := by
    intro r hr
    obtain ⟨p, hp, hpe⟩ :=
      List.mem_map.1 (hperm.subset (List.take_subset _ _ hr))
    exact ⟨p, hp, hpe.symm⟩
  refine ⟨by rw [List.length_take]; exact min_le_left _ _,
    List.Pairwise.sublist (List.take_sublist _ _) hsort, hmem, ?_⟩
  intro r hr r2 hr2 heq
  obtain ⟨p, hp, rfl⟩ := hmem r hr
  obtain ⟨q, hq, rfl⟩ := hmem r2 hr2
  have heq2 : p.2 = q.2 := heq
  show rankOf (customerAvg customers orders) p.2 =
    rankOf (customerAvg customers orders) q.2
  rw [heq2]

theorem C7_customer_segmentation_witness :
    [((1 : Nat), (100 : ℚ), (1 : Nat))].length ≤ 10 ∧
    ∃ p ∈ customerAvg [⟨1, "Customer 1", "customer1@example.com", 0⟩]
        [⟨1, 1, 0, 100⟩],
      ((1 : Nat), (100 : ℚ), (1 : Nat)) =
        (p.1, p.2, rankOf (customerAvg [⟨1, "Customer 1", "customer1@example.com", 0⟩]
          [⟨1, 1, 0, 100⟩]) p.2) :=
  have hrows : segmentationRows [⟨1, "Customer 1", "customer1@example.com", 0⟩]
      [⟨1, 1, 0, 100⟩] = [(1, (100 : ℚ), 1)] := by
    have havg : customerAvg [⟨1, "Customer 1", "customer1@example.com", 0⟩]
        [⟨1, 1, 0, 100⟩] = [(1, (100 : ℚ))] := by
      simp [customerAvg]
    simp [segmentationRows, havg, rankOf]
  have hp : SegmentationPossible [⟨1, "Customer 1", "customer1@example.com", 0⟩]
      [⟨1, 1, 0, 100⟩] [(1, (100 : ℚ), 1)] :=
    ⟨[(1, (100 : ℚ), 1)], hrows ▸ List.Perm.refl _, by simp, rfl⟩
  ⟨(C7_customer_segmentation _ _ _ hp).1,
   (C7_customer_segmentation _ _ _ hp).2.2.1 (1, (100 : ℚ), 1) (by decide)⟩

end SQLAnalysis
